import Mathlib

/-! opengl-demos: terrain tessellation entry point and sky box scene declaration

Embedding of

* `src/rendering/ex_terrain_tessellation/main.cpp` : the function `main`, as a list of
  state-passing steps, one per executed statement, together with the trace of calls it makes;
* `src/texturing/ex_skybox/skyboxscene.h` : the declaration of class `SkyBoxScene`, as a
  table of its base class, member functions and data members.

The environment of `main` (what the preprocessor, Qt and the operating system decide) is
the record `Env`.  The model covers the runs in which every callee returns: `main` itself
has no branch, no loop, no handler and no early return.
-/

namespace OpenGLDemos

/-! ## QSurfaceFormat (Qt) -/

/-- The profile kinds of `QSurfaceFormat::OpenGLContextProfile`. -/
inductive OpenGLContextProfile where
  | NoProfile
  | CoreProfile
  | CompatibilityProfile
  deriving DecidableEq, Repr

/-- The surface format descriptor: the five attributes that `main` configures. -/
structure QSurfaceFormat where
  majorVersion : Int
  minorVersion : Int
  depthBufferSize : Int
  samples : Int
  profile : OpenGLContextProfile
  deriving DecidableEq, Repr

/-- Qt setter `QSurfaceFormat::setMajorVersion`. -/
def QSurfaceFormat.setMajorVersion (f : QSurfaceFormat) (v : Int) : QSurfaceFormat :=
  { f with majorVersion := v }

/-- Qt setter `QSurfaceFormat::setMinorVersion`. -/
def QSurfaceFormat.setMinorVersion (f : QSurfaceFormat) (v : Int) : QSurfaceFormat :=
  { f with minorVersion := v }

/-- Qt setter `QSurfaceFormat::setDepthBufferSize`. -/
def QSurfaceFormat.setDepthBufferSize (f : QSurfaceFormat) (v : Int) : QSurfaceFormat :=
  { f with depthBufferSize := v }

/-- Qt setter `QSurfaceFormat::setSamples`. -/
def QSurfaceFormat.setSamples (f : QSurfaceFormat) (v : Int) : QSurfaceFormat :=
  { f with samples := v }

/-- Qt setter `QSurfaceFormat::setProfile`. -/
def QSurfaceFormat.setProfile (f : QSurfaceFormat) (p : OpenGLContextProfile) :
    QSurfaceFormat :=
  { f with profile := p }

/-- The value of a default-constructed `QSurfaceFormat` in Qt 5 (version 2.0, no depth
buffer size and no sample count requested, no profile).  Used only for concrete runs. -/
def qtDefaultFormat : QSurfaceFormat :=
  { majorVersion := 2, minorVersion := 0, depthBufferSize := -1, samples := -1,
    profile := OpenGLContextProfile.NoProfile }

/-! ## Scenes and the window -/

/-- The concrete scene classes named in the sources. -/
inductive SceneKind where
  | TerrainTessellationScene
  | SkyBoxScene
  deriving DecidableEq, Repr

/-- Modelled from the spec: class `Window` (`window.h`, `window.cpp`) is not among the
sources.  The spec describes it as owning "the currently attached scene (at most one)",
being constructed from a format descriptor, and exposing `setScene` and `show`. -/
structure Window where
  format : QSurfaceFormat
  scene : Option SceneKind
  shown : Bool
  deriving DecidableEq, Repr

/-- Modelled from the spec: the constructor `Window( format )` (not among the sources);
a freshly created window has consumed the format and has no scene attached. -/
def Window.construct (format : QSurfaceFormat) : Window :=
  { format := format, scene := none, shown := false }

/-- Modelled from the spec: `Window::setScene` (not among the sources) "transfers ownership
of the scene to the window"; the scene passed becomes the attached one. -/
def Window.setScene (w : Window) (s : SceneKind) : Window :=
  { w with scene := some s }

/-- Modelled from the spec: `Window::show` (not among the sources) makes the window
visible and leaves format and scene alone. -/
def Window.show (w : Window) : Window :=
  { w with shown := true }

/-! ## The calls made by `main` -/

/-- One observable action of `main`: a call it makes, or its return. -/
inductive Action where
  | appConstruct (argc : Int) (argv : List String)
  | formatConstruct
  | setMajorVersion (v : Int)
  | setMinorVersion (v : Int)
  | setDepthBufferSize (v : Int)
  | setSamples (v : Int)
  | setProfile (p : OpenGLContextProfile)
  | windowConstruct (format : QSurfaceFormat)
  | sceneConstruct (s : SceneKind)
  | setScene (s : SceneKind)
  | show
  | execEnter
  | execReturn (r : Int)
  | ret (code : Int)
  deriving DecidableEq, Repr

/-- What `main` does not decide itself. -/
structure Env where
  /-- whether the preprocessor symbol `Q_OS_MAC` is defined for the build -/
  qOsMac : Bool
  /-- the value of a default-constructed `QSurfaceFormat` -/
  defaultFormat : QSurfaceFormat
  argc : Int
  argv : List String
  /-- the value that the event loop `a.exec()` returns -/
  execResult : Int
  deriving DecidableEq, Repr

/-- The locals of `main`, the value it returned (if it has), and the calls made so far. -/
structure MainState where
  /-- the application object `a`, holding what it was constructed from -/
  a : Option (Int × List String)
  /-- the local `format` -/
  format : Option QSurfaceFormat
  /-- the local `w` -/
  w : Option Window
  /-- the result of the new-expression on line 24, until it is passed on -/
  fresh : Option SceneKind
  /-- the value of `a.exec()`, once the event loop has ended -/
  loopResult : Option Int
  /-- the value returned by `main` -/
  result : Option Int
  trace : List Action
  deriving DecidableEq, Repr

/-- The state on entry to `main`. -/
def MainState.init : MainState :=
  { a := none, format := none, w := none, fresh := none, loopResult := none,
    result := none, trace := [] }

/-- Line 9: `QGuiApplication a( argc, argv );` -/
def line9 (e : Env) (s : MainState) : MainState :=
  { s with a := some (e.argc, e.argv),
           trace := s.trace ++ [Action.appConstruct e.argc e.argv] }

/-- Line 12: `QSurfaceFormat format;` -/
def line12 (e : Env) (s : MainState) : MainState :=
  { s with format := some e.defaultFormat,
           trace := s.trace ++ [Action.formatConstruct] }

/-- Line 13: `format.setMajorVersion( 4 );` -/
def line13 (_e : Env) (s : MainState) : MainState :=
  { s with format := s.format.map (fun f => f.setMajorVersion 4),
           trace := s.trace ++ [Action.setMajorVersion 4] }

/-- Line 15, compiled when `Q_OS_MAC` is not defined: `format.setMinorVersion( 0 );` -/
def line15 (_e : Env) (s : MainState) : MainState :=
  { s with format := s.format.map (fun f => f.setMinorVersion 0),
           trace := s.trace ++ [Action.setMinorVersion 0] }

/-- Line 17, compiled when `Q_OS_MAC` is defined: `format.setMinorVersion( 2 );` -/
def line17 (_e : Env) (s : MainState) : MainState :=
  { s with format := s.format.map (fun f => f.setMinorVersion 2),
           trace := s.trace ++ [Action.setMinorVersion 2] }

/-- Line 19: `format.setDepthBufferSize( 24 );` -/
def line19 (_e : Env) (s : MainState) : MainState :=
  { s with format := s.format.map (fun f => f.setDepthBufferSize 24),
           trace := s.trace ++ [Action.setDepthBufferSize 24] }

/-- Line 20: `format.setSamples( 4 );` -/
def line20 (_e : Env) (s : MainState) : MainState :=
  { s with format := s.format.map (fun f => f.setSamples 4),
           trace := s.trace ++ [Action.setSamples 4] }

/-- Line 21: `format.setProfile( QSurfaceFormat::CoreProfile );` -/
def line21 (_e : Env) (s : MainState) : MainState :=
  { s with format := s.format.map (fun f => f.setProfile OpenGLContextProfile.CoreProfile),
           trace := s.trace ++ [Action.setProfile OpenGLContextProfile.CoreProfile] }

/-- Line 23: `Window w( format );` -/
def line23 (_e : Env) (s : MainState) : MainState :=
  { s with w := s.format.map Window.construct,
           trace := s.trace ++ (s.format.map Action.windowConstruct).toList }

/-- Line 24, the argument: `new TerrainTessellationScene` -/
def line24_new (_e : Env) (s : MainState) : MainState :=
  { s with fresh := some SceneKind.TerrainTessellationScene,
           trace := s.trace ++ [Action.sceneConstruct SceneKind.TerrainTessellationScene] }

/-- Line 24, the call: `w.setScene( ... );` with the scene just created. -/
def line24_setScene (_e : Env) (s : MainState) : MainState :=
  match s.fresh with
  | some sc =>
      { s with w := s.w.map (fun w => w.setScene sc), fresh := none,
               trace := s.trace ++ [Action.setScene sc] }
  | none => s

/-- Line 26: `w.show();` -/
def line26 (_e : Env) (s : MainState) : MainState :=
  { s with w := s.w.map Window.show, trace := s.trace ++ [Action.show] }

/-- Line 27, the call `a.exec()` is entered. -/
def line27_execEnter (_e : Env) (s : MainState) : MainState :=
  { s with trace := s.trace ++ [Action.execEnter] }

/-- Line 27, the event loop ends and `a.exec()` yields its value. -/
def line27_execReturn (e : Env) (s : MainState) : MainState :=
  { s with loopResult := some e.execResult,
           trace := s.trace ++ [Action.execReturn e.execResult] }

/-- Line 27, `return` of the value of `a.exec()`. -/
def line27_return (_e : Env) (s : MainState) : MainState :=
  match s.loopResult with
  | some r => { s with result := some r, trace := s.trace ++ [Action.ret r] }
  | none => s

/-- The body of `main` in program order.  The preprocessor keeps exactly one of
lines 15 and 17. -/
def mainBody (e : Env) : List (Env → MainState → MainState) :=
  [line9, line12, line13, if e.qOsMac then line17 else line15, line19, line20, line21,
   line23, line24_new, line24_setScene, line26,
   line27_execEnter, line27_execReturn, line27_return]

/-- Run a list of steps from a state. -/
def runSteps (e : Env) (steps : List (Env → MainState → MainState)) (s : MainState) :
    MainState :=
  steps.foldl (fun st f => f e st) s

/-- The state of `main` after its first `k` steps (all of them when `k` is large). -/
def mainAt (e : Env) (k : Nat) : MainState :=
  runSteps e ((mainBody e).take k) MainState.init

/-- A complete run of `main`. -/
def main (e : Env) : MainState :=
  runSteps e (mainBody e) MainState.init

/-! ## Observers on traces and states -/

/-- The format descriptors handed to the `Window` constructor, in call order. -/
def windowFormats (t : List Action) : List QSurfaceFormat :=
  t.filterMap (fun a => match a with
    | Action.windowConstruct f => some f
    | _ => none)

/-- The scenes passed to `setScene`, in call order. -/
def scenesSet (t : List Action) : List SceneKind :=
  t.filterMap (fun a => match a with
    | Action.setScene s => some s
    | _ => none)

/-- Whether an action is a call on the window `w` (its construction included). -/
def Action.onWindow : Action → Bool
  | Action.windowConstruct _ => true
  | Action.setScene _ => true
  | Action.show => true
  | _ => false

/-- The calls made on the window, in order. -/
def windowCalls (t : List Action) : List Action :=
  t.filter Action.onWindow

/-- Whether an action writes a field of the format descriptor. -/
def Action.writesFormat : Action → Bool
  | Action.setMajorVersion _ => true
  | Action.setMinorVersion _ => true
  | Action.setDepthBufferSize _ => true
  | Action.setSamples _ => true
  | Action.setProfile _ => true
  | _ => false

/-- Whether an action is the construction of the window. -/
def Action.isWindowConstruct : Action → Bool
  | Action.windowConstruct _ => true
  | _ => false

/-- The writes to the format descriptor made from the construction of the window on. -/
def writesAfterWindow (t : List Action) : List Action :=
  (t.dropWhile (fun a => !a.isWindowConstruct)).filter Action.writesFormat

/-- The scene attached to the window, if there is a window and it has one. -/
def attachedScene (s : MainState) : Option SceneKind :=
  s.w.bind Window.scene

/-- The format `main` has configured once line 21 is done. -/
def configuredFormat (e : Env) : QSurfaceFormat :=
  { majorVersion := 4, minorVersion := if e.qOsMac then 2 else 0, depthBufferSize := 24,
    samples := 4, profile := OpenGLContextProfile.CoreProfile }

/-- The trace of a complete run. -/
def fullTrace (e : Env) : List Action :=
  [Action.appConstruct e.argc e.argv, Action.formatConstruct, Action.setMajorVersion 4,
   Action.setMinorVersion (if e.qOsMac then 2 else 0), Action.setDepthBufferSize 24,
   Action.setSamples 4, Action.setProfile OpenGLContextProfile.CoreProfile,
   Action.windowConstruct (configuredFormat e),
   Action.sceneConstruct SceneKind.TerrainTessellationScene,
   Action.setScene SceneKind.TerrainTessellationScene, Action.show,
   Action.execEnter, Action.execReturn e.execResult, Action.ret e.execResult]

/-- A concrete build and run off macOS. -/
def envLinux : Env :=
  { qOsMac := false, defaultFormat := qtDefaultFormat, argc := 1,
    argv := ["ex_terrain_tessellation"], execResult := 0 }

/-- A concrete build and run on macOS. -/
def envMac : Env :=
  { qOsMac := true, defaultFormat := qtDefaultFormat, argc := 1,
    argv := ["ex_terrain_tessellation"], execResult := 0 }

/-! ## The declaration of class SkyBoxScene (skyboxscene.h) -/

/-- The C++ types that occur in the declaration of `SkyBoxScene`. -/
inductive CppType where
  | void
  | float
  | int
  | QMatrix4x4
  | pointerTo (className : String)
  deriving DecidableEq, Repr

/-- A member function declaration: `returns` is `none` for a constructor. -/
structure MethodDecl where
  name : String
  isVirtual : Bool
  returns : Option CppType
  params : List CppType
  deriving DecidableEq, Repr

/-- A data member declaration. -/
structure FieldDecl where
  name : String
  type : CppType
  deriving DecidableEq, Repr

/-- A class declaration: its public base classes, public member functions and private
data members, in source order. -/
structure ClassDecl where
  name : String
  bases : List String
  publicMethods : List MethodDecl
  privateFields : List FieldDecl
  deriving DecidableEq, Repr

/-- The declaration of `SkyBoxScene`, lines 10 to 36 of `skyboxscene.h`. -/
def SkyBoxScene : ClassDecl :=
  { name := "SkyBoxScene",
    bases := ["AbstractScene"],
    publicMethods :=
      [ { name := "SkyBoxScene", isVirtual := false, returns := none,
          params := [CppType.pointerTo "QObject"] },
        { name := "initialise", isVirtual := true, returns := some CppType.void,
          params := [] },
        { name := "update", isVirtual := true, returns := some CppType.void,
          params := [CppType.float] },
        { name := "render", isVirtual := true, returns := some CppType.void,
          params := [] },
        { name := "resize", isVirtual := true, returns := some CppType.void,
          params := [CppType.int, CppType.int] },
        { name := "setYawSpeed", isVirtual := false, returns := some CppType.void,
          params := [CppType.float] },
        { name := "setPitchSpeed", isVirtual := false, returns := some CppType.void,
          params := [CppType.float] } ],
    privateFields :=
      [ { name := "m_theta", type := CppType.float },
        { name := "m_phi", type := CppType.float },
        { name := "m_modelMatrix", type := CppType.QMatrix4x4 },
        { name := "m_viewMatrix", type := CppType.QMatrix4x4 },
        { name := "m_projectionMatrix", type := CppType.QMatrix4x4 },
        { name := "m_skyBox", type := CppType.pointerTo "SkyBox" },
        { name := "m_yawSpeed", type := CppType.float },
        { name := "m_pitchSpeed", type := CppType.float } ] }

/-- The member functions of a class declared under a given name. -/
def ClassDecl.methodsNamed (c : ClassDecl) (n : String) : List MethodDecl :=
  c.publicMethods.filter (fun m => m.name == n)

/-! ## Helper lemmas -/

theorem main_trace_eq (e : Env) : (main e).trace = fullTrace e := by
  rcases e with ⟨mac, d, argc, argv, r⟩
  cases mac <;> rfl

theorem mainBody_length (e : Env) : (mainBody e).length = 14 := rfl

theorem mainAt_of_le (e : Env) (k : Nat) (h : 14 ≤ k) : mainAt e k = main e := by
  unfold mainAt main
  rw [List.take_of_length_le (by rw [mainBody_length]; exact h)]

theorem mainAt_trace (e : Env) (k : Nat) : (mainAt e k).trace = (fullTrace e).take k := by
  rcases e with ⟨mac, d, argc, argv, r⟩
  by_cases hk : k ≤ 14
  · interval_cases k <;> cases mac <;> rfl
  · have h14 : 14 ≤ k := by omega
    rw [mainAt_of_le _ k h14, main_trace_eq]
    exact (List.take_of_length_le (by simpa [fullTrace] using h14)).symm

/-! ## The claims -/

/-- C1, as stated, fails on a macOS build: with `Q_OS_MAC` defined the descriptor handed
to the `Window` constructor has minor version 2, so it is not {4, 0, 24, 4, core}. -/
theorem C1_minor_version_is_2_on_mac :
    windowFormats (main envMac).trace =
        [{ majorVersion := 4, minorVersion := 2, depthBufferSize := 24, samples := 4,
           profile := OpenGLContextProfile.CoreProfile }] ∧
      windowFormats (main envMac).trace ≠
        [{ majorVersion := 4, minorVersion := 0, depthBufferSize := 24, samples := 4,
           profile := OpenGLContextProfile.CoreProfile }] := by
  decide

/-- C1, amended: on a build without `Q_OS_MAC`, whatever a default-constructed format
holds and whatever the arguments and the event loop result are, `main` calls each of the
five setters, constructs the `Window` exactly once, and the descriptor it hands over is
exactly {major 4, minor 0, depth 24, samples 4, core profile}. -/
theorem C1_format_off_mac (d : QSurfaceFormat) (argc : Int) (argv : List String) (r : Int) :
    windowFormats (main ⟨false, d, argc, argv, r⟩).trace =
        [{ majorVersion := 4, minorVersion := 0, depthBufferSize := 24, samples := 4,
           profile := OpenGLContextProfile.CoreProfile }] ∧
      (main ⟨false, d, argc, argv, r⟩).trace.filter Action.writesFormat =
        [Action.setMajorVersion 4, Action.setMinorVersion 0, Action.setDepthBufferSize 24,
         Action.setSamples 4, Action.setProfile OpenGLContextProfile.CoreProfile] := by
  constructor <;> rfl

/-- C2: in every run of `main` the calls are, in this order and each once: the
application object is built, the format is default-constructed and its five setters are
called, the `Window` is constructed with the configured format, a
`TerrainTessellationScene` is created and passed to `setScene`, `show` is called, and the
event loop is entered (and, when it ends, `main` returns).  At every point of the run at
which `show` has been called or the event loop has been entered, `setScene` has already
been called. -/
theorem C2_actions_in_order (e : Env) :
    (main e).trace =
        [Action.appConstruct e.argc e.argv, Action.formatConstruct,
         Action.setMajorVersion 4, Action.setMinorVersion (if e.qOsMac then 2 else 0),
         Action.setDepthBufferSize 24, Action.setSamples 4,
         Action.setProfile OpenGLContextProfile.CoreProfile,
         Action.windowConstruct
           { majorVersion := 4, minorVersion := if e.qOsMac then 2 else 0,
             depthBufferSize := 24, samples := 4,
             profile := OpenGLContextProfile.CoreProfile },
         Action.sceneConstruct SceneKind.TerrainTessellationScene,
         Action.setScene SceneKind.TerrainTessellationScene,
         Action.show, Action.execEnter,
         Action.execReturn e.execResult, Action.ret e.execResult] ∧
      ∀ k, (Action.show ∈ (mainAt e k).trace ∨ Action.execEnter ∈ (mainAt e k).trace) →
        Action.setScene SceneKind.TerrainTessellationScene ∈ (mainAt e k).trace := by
  refine ⟨main_trace_eq e, ?_⟩
  intro k
  rw [mainAt_trace]
  by_cases hk : k ≤ 14
  · interval_cases k <;> simp [fullTrace]
  · rw [List.take_of_length_le (by simp [fullTrace]; omega)]
    simp [fullTrace]

/-- C3: `main` returns exactly the value the event loop returned, whatever it is; it
returns 0 when the event loop ends with 0; and at every point of the run at which `main`
has returned, the event loop has ended before. -/
theorem C3_exit_code_is_exec_result (e : Env) :
    (main e).result = some e.execResult ∧
      (main { e with execResult := 0 }).result = some 0 ∧
      ∀ k, (mainAt e k).result = none ∨
        ((mainAt e k).result = some e.execResult ∧
          Action.execReturn e.execResult ∈ (mainAt e k).trace) := by
  rcases e with ⟨mac, d, argc, argv, r⟩
  refine ⟨by cases mac <;> rfl, by cases mac <;> rfl, ?_⟩
  intro k
  by_cases hk : k ≤ 13
  · left
    interval_cases k <;> cases mac <;> rfl
  · right
    have h14 : 14 ≤ k := by omega
    rw [mainAt_of_le _ k h14, main_trace_eq]
    exact ⟨by cases mac <;> rfl, by simp [fullTrace]⟩

/-- C4: two runs of the same build that differ in the argument vector (and possibly in
what the event loop returns) hand the same format to the `Window`, attach the same scene
and make the same calls on the window; the arguments occur only in the first action, the
construction of the application object, and with the same event loop result everything
after that action is the same. -/
theorem C4_arguments_do_not_influence_setup (mac : Bool) (d : QSurfaceFormat)
    (argc argc2 : Int) (argv argv2 : List String) (r r2 : Int) :
    windowFormats (main ⟨mac, d, argc, argv, r⟩).trace =
        windowFormats (main ⟨mac, d, argc2, argv2, r2⟩).trace ∧
      scenesSet (main ⟨mac, d, argc, argv, r⟩).trace =
        scenesSet (main ⟨mac, d, argc2, argv2, r2⟩).trace ∧
      windowCalls (main ⟨mac, d, argc, argv, r⟩).trace =
        windowCalls (main ⟨mac, d, argc2, argv2, r2⟩).trace ∧
      (main ⟨mac, d, argc, argv, r⟩).trace.head? = some (Action.appConstruct argc argv) ∧
      (main ⟨mac, d, argc, argv, r⟩).trace.tail =
        (main ⟨mac, d, argc2, argv2, r⟩).trace.tail := by
  simp only [main_trace_eq]
  cases mac <;> refine ⟨?_, ?_, ?_, ?_, ?_⟩ <;> rfl

/-- C5: at every point of a run of `main`, either `setScene` has not been called and
no scene is attached to the window, or `setScene` has been called exactly once, with the
`TerrainTessellationScene`, and that scene is the one attached; the latter holds at every
point from the entry into the event loop on, and over the whole run `setScene` is called
exactly once. -/
theorem C5_zero_or_one_scene (e : Env) (k : Nat) :
    ((scenesSet (mainAt e k).trace = [] ∧ attachedScene (mainAt e k) = none) ∨
        (scenesSet (mainAt e k).trace = [SceneKind.TerrainTessellationScene] ∧
          attachedScene (mainAt e k) = some SceneKind.TerrainTessellationScene)) ∧
      (Action.execEnter ∈ (mainAt e k).trace →
        attachedScene (mainAt e k) = some SceneKind.TerrainTessellationScene) ∧
      scenesSet (main e).trace = [SceneKind.TerrainTessellationScene] := by
  rcases e with ⟨mac, d, argc, argv, r⟩
  have hfull : ∀ m : Bool, attachedScene (main ⟨m, d, argc, argv, r⟩) =
      some SceneKind.TerrainTessellationScene := by
    intro m; cases m <;> rfl
  have hset : ∀ m : Bool, scenesSet (main ⟨m, d, argc, argv, r⟩).trace =
      [SceneKind.TerrainTessellationScene] := by
    intro m
    simp only [main_trace_eq]
    cases m <;> rfl
  refine ⟨?_, ?_, hset mac⟩
  · by_cases hk : k ≤ 9
    · left
      interval_cases k <;> cases mac <;> constructor <;> rfl
    · right
      by_cases hk2 : k ≤ 14
      · interval_cases k <;> cases mac <;> constructor <;> rfl
      · rw [mainAt_of_le _ k (by omega)]
        exact ⟨hset mac, hfull mac⟩
  · by_cases hk : k ≤ 11
    · intro h
      rw [mainAt_trace] at h
      interval_cases k <;> simp [fullTrace] at h
    · intro _
      by_cases hk2 : k ≤ 14
      · interval_cases k <;> cases mac <;> rfl
      · rw [mainAt_of_le _ k (by omega)]
        exact hfull mac

/-- C6: at every point of a run of `main` after the `Window` has been constructed from
a descriptor value `f`, the local `format` still holds `f` and no setter of the format has
been called since the construction; in particular `format` holds `f` when `main` ends. -/
theorem C6_format_not_written_after_window (e : Env) (k : Nat) (f : QSurfaceFormat)
    (h : Action.windowConstruct f ∈ (mainAt e k).trace) :
    (mainAt e k).format = some f ∧ writesAfterWindow (mainAt e k).trace = [] ∧
      (main e).format = some f ∧ windowFormats (main e).trace = [f] := by
  rcases e with ⟨mac, d, argc, argv, r⟩
  have hf : f = configuredFormat ⟨mac, d, argc, argv, r⟩ := by
    rw [mainAt_trace] at h
    have h2 := List.mem_of_mem_take h
    simpa [fullTrace] using h2
  subst hf
  have hmain : ∀ m : Bool, (main ⟨m, d, argc, argv, r⟩).format =
        some (configuredFormat ⟨m, d, argc, argv, r⟩) ∧
      writesAfterWindow (main ⟨m, d, argc, argv, r⟩).trace = [] ∧
      windowFormats (main ⟨m, d, argc, argv, r⟩).trace =
        [configuredFormat ⟨m, d, argc, argv, r⟩] := by
    intro m
    refine ⟨by cases m <;> rfl, ?_, ?_⟩ <;> simp only [main_trace_eq] <;> cases m <;> rfl
  refine ⟨?_, ?_, (hmain mac).1, (hmain mac).2.2⟩
  · by_cases hk : k ≤ 7
    · rw [mainAt_trace] at h
      interval_cases k <;> simp [fullTrace] at h
    · by_cases hk2 : k ≤ 14
      · interval_cases k <;> cases mac <;> rfl
      · rw [mainAt_of_le _ k (by omega)]
        exact (hmain mac).1
  · by_cases hk2 : k ≤ 14
    · rw [mainAt_trace]
      interval_cases k <;> cases mac <;> rfl
    · rw [mainAt_of_le _ k (by omega)]
      exact (hmain mac).2.1

/-- Witness for C6: the run off macOS, just after line 23, where the window has been
constructed from {4, 0, 24, 4, core}. -/
theorem C6_format_not_written_after_window_witness :
    Action.windowConstruct (configuredFormat envLinux) ∈ (mainAt envLinux 8).trace ∧
      ((mainAt envLinux 8).format = some (configuredFormat envLinux) ∧
        writesAfterWindow (mainAt envLinux 8).trace = [] ∧
        (main envLinux).format = some (configuredFormat envLinux) ∧
        windowFormats (main envLinux).trace = [configuredFormat envLinux]) :=
  ⟨by decide, C6_format_not_written_after_window envLinux 8 (configuredFormat envLinux)
    (by decide)⟩

/-- C7: the declaration of `SkyBoxScene` has `AbstractScene` as its one base class and
declares each of `initialise()`, `update(float)`, `render()` and `resize(int, int)`
exactly once, each virtual and each with return type `void`. -/
theorem C7_SkyBoxScene_declares_the_four_hooks :
    SkyBoxScene.bases = ["AbstractScene"] ∧
      SkyBoxScene.methodsNamed "initialise" =
        [{ name := "initialise", isVirtual := true, returns := some CppType.void,
           params := [] }] ∧
      SkyBoxScene.methodsNamed "update" =
        [{ name := "update", isVirtual := true, returns := some CppType.void,
           params := [CppType.float] }] ∧
      SkyBoxScene.methodsNamed "render" =
        [{ name := "render", isVirtual := true, returns := some CppType.void,
           params := [] }] ∧
      SkyBoxScene.methodsNamed "resize" =
        [{ name := "resize", isVirtual := true, returns := some CppType.void,
           params := [CppType.int, CppType.int] }] := by
  decide

/-- C9: on every build the descriptor handed to the `Window` constructor has major
version 4, depth buffer 24, 4 samples and the core profile, and its minor version is 2
when `Q_OS_MAC` is defined and 0 otherwise; nothing else of the environment enters. -/
theorem C9_platform_enters_only_through_minor_version (e : Env) :
    windowFormats (main e).trace =
      [{ majorVersion := 4, minorVersion := if e.qOsMac then 2 else 0,
         depthBufferSize := 24, samples := 4,
         profile := OpenGLContextProfile.CoreProfile }] := by
  rcases e with ⟨mac, d, argc, argv, r⟩
  cases mac <;> rfl

end OpenGLDemos
